import Mathlib

/-!
# Verification of the trip-matching and route-scoring engine

A shallow embedding, in Lean 4, of the core algorithms of the
smartroute-planner repository:

* the geometry utilities (`calculateDistance`, `distanceToRoute`) and the
  match scorer (`calculateMatchScore`, `getMatchingConfig`) from
  `src/app/api/groups/[id]/combined-route/route.ts`;
* the matching orchestrator loop of the trip-creation `POST` handler in the
  same file (`runMatching`);
* the combined-route waypoint ordering (`collectWaypoints`,
  `orderedWaypointsOf`) from `calculateCombinedRoute`;
* the route-alternative analyzer (`calculateRouteScore`,
  `estimateFuelCost`, `estimateTrafficFactor`, `analyzeAlternatives`,
  `fallbackDirectRoute`) from `src/app/api/emergency-contacts/route.ts`
  (the route-planner `POST` handler bundled in that file).

Modelling conventions:

* JavaScript numbers are modelled by `ℝ`.  All the arithmetic the claims
  touch stays well inside the range where IEEE doubles behave like reals.
* `Math.round` is Mathlib's `round` (both round halves up).
* Scores are integers in the source (sums of `Math.round` results and
  integer constants), so the accumulated score is modelled as `ℤ`.
* Nullable values (`x | null`) are `Option`s.
* The reason tags pushed by the scorer are interpolated strings in the
  source (for instance `starting_points_nearby_3.2km`); they are modelled
  as a tagged variant carrying the embedded distance, which identifies the
  string uniquely up to decimal rendering.
* JavaScript object identity (the `!==` tests of the analyzer) is modelled
  by an explicit `allocId` field: elements of the `analyzedRoutes` array
  get their array index, and the objects freshly allocated by the object
  spread inside `.map(...)` get indices that are fresh by construction.
-/

open Real

/-- `toRad` from the source: degrees to radians. -/
noncomputable def toRad (degrees : ℝ) : ℝ :=
  degrees * (π / 180)

/-- JavaScript `Math.atan2 y x` on the reals (the source only ever reaches
the `0 < x` branch, and the branch with `x = 0`, `0 < y`). -/
noncomputable def atan2 (y x : ℝ) : ℝ :=
  if 0 < x then arctan (y / x)
  else if x < 0 then
    (if 0 ≤ y then arctan (y / x) + π else arctan (y / x) - π)
  else
    (if 0 < y then π / 2 else if y < 0 then -(π / 2) else 0)

/-- `calculateDistance` from the source: haversine distance in kilometres
between two `(latitude, longitude)` pairs, Earth radius 6371 km. -/
noncomputable def calculateDistance (start finish : ℝ × ℝ) : ℝ :=
  let R : ℝ := 6371
  let dLat := toRad (finish.1 - start.1)
  let dLon := toRad (finish.2 - start.2)
  let lat1 := toRad start.1
  let lat2 := toRad finish.1
  let a := sin (dLat / 2) * sin (dLat / 2) +
    sin (dLon / 2) * sin (dLon / 2) * cos lat1 * cos lat2
  let c := 2 * atan2 (√a) (√(1 - a))
  R * c

/-- `distanceToRoute` from the source: minimum haversine distance from a
point to the vertices of a route.  The JS loop starts from `Infinity`,
which has no counterpart in `ℝ`; `none` models that initial value (it is
the result exactly when the route is empty, and every comparison
`Infinity <= r` in the callers is false, which is how the rules treat
`none`). -/
noncomputable def distanceToRoute (point : ℝ × ℝ)
    (routeCoordinates : List (ℝ × ℝ)) : Option ℝ :=
  routeCoordinates.foldl
    (fun minDistance routePoint =>
      let distance := calculateDistance point routePoint
      match minDistance with
      | none => some distance
      | some m => if distance < m then some distance else some m)
    none

/-- The matching configuration returned by `getMatchingConfig`. -/
structure MatchingConfig where
  SOURCE_RADIUS_KM : ℝ
  DESTINATION_RADIUS_KM : ℝ
  ROUTE_PROXIMITY_KM : ℝ
  MIN_MATCH_SCORE : ℤ

/-- `getMatchingConfig` from the source. -/
noncomputable def getMatchingConfig (matchRadius : ℝ) : MatchingConfig where
  SOURCE_RADIUS_KM := matchRadius
  DESTINATION_RADIUS_KM := matchRadius
  ROUTE_PROXIMITY_KM := matchRadius / 2
  MIN_MATCH_SCORE := 50

/-- The reason tags `calculateMatchScore` pushes, as a tagged variant.  In
the source each proximity tag is an interpolated string embedding the
measured distance (for instance `starting_points_nearby_3.2km`); the
variant carries that distance. -/
inductive Reason where
  | starting_points_nearby (distanceKm : ℝ)
  | destinations_nearby (distanceKm : ℝ)
  | same_destination_name
  | can_pickup_along_route (distanceKm : ℝ)
  | can_dropoff_along_route (distanceKm : ℝ)
  | they_can_pickup (distanceKm : ℝ)
  | they_can_dropoff (distanceKm : ℝ)
  | same_travel_date
  | same_transport_mode

/-- The `details` record of a `MatchResult`. -/
structure MatchDetails where
  sourceDistance : Option ℝ
  destinationDistance : Option ℝ
  routeProximity : Option ℝ

/-- The result record of `calculateMatchScore` (also used as the running
accumulator for the mutable `score` / `reasons` / `details` of the
source). -/
structure MatchResult where
  score : ℤ
  reasons : List Reason
  details : MatchDetails

/-- One trip as `calculateMatchScore` receives it. -/
structure ScoreTrip where
  sourceCoords : Option (ℝ × ℝ)
  destCoords : Option (ℝ × ℝ)
  routeGeometry : Option (List (ℝ × ℝ))
  destination : String
  travelDate : String
  transportMode : String
  matchRadius : ℝ

/-- Rule 1 of `calculateMatchScore`: sources within radius (45 points).
`details.sourceDistance` is set as soon as both coordinates are present,
before the radius test. -/
noncomputable def rule1SourcesNearby (cfg : MatchingConfig)
    (tripA tripB : ScoreTrip) (acc : MatchResult) : MatchResult :=
  match tripA.sourceCoords, tripB.sourceCoords with
  | some pA, some pB =>
    let sourceDistance := calculateDistance pA pB
    let acc := { acc with details := { acc.details with sourceDistance := some sourceDistance } }
    if sourceDistance ≤ cfg.SOURCE_RADIUS_KM then
      { acc with
        score := acc.score + round ((45 : ℝ) * (1 - sourceDistance / cfg.SOURCE_RADIUS_KM)),
        reasons := acc.reasons ++ [Reason.starting_points_nearby sourceDistance] }
    else acc
  | _, _ => acc

/-- Rule 2 of `calculateMatchScore`: destinations within radius (45
points). -/
noncomputable def rule2DestinationsNearby (cfg : MatchingConfig)
    (tripA tripB : ScoreTrip) (acc : MatchResult) : MatchResult :=
  match tripA.destCoords, tripB.destCoords with
  | some pA, some pB =>
    let destDistance := calculateDistance pA pB
    let acc := { acc with details := { acc.details with destinationDistance := some destDistance } }
    if destDistance ≤ cfg.DESTINATION_RADIUS_KM then
      { acc with
        score := acc.score + round ((45 : ℝ) * (1 - destDistance / cfg.DESTINATION_RADIUS_KM)),
        reasons := acc.reasons ++ [Reason.destinations_nearby destDistance] }
    else acc
  | _, _ => acc

/-- Rule 3 of `calculateMatchScore`: exact same destination name (10
points). -/
def rule3SameDestinationName (tripA tripB : ScoreTrip)
    (acc : MatchResult) : MatchResult :=
  if tripA.destination.toLower.trim = tripB.destination.toLower.trim then
    { acc with
      score := acc.score + 10,
      reasons := acc.reasons ++ [Reason.same_destination_name] }
  else acc

/-- Rule 4 of `calculateMatchScore`: the source of B along the route of A
(40 points); the only rule that sets `details.routeProximity`, and it sets
it inside the threshold test. -/
noncomputable def rule4PickupAlongA (cfg : MatchingConfig)
    (tripA tripB : ScoreTrip) (acc : MatchResult) : MatchResult :=
  match tripB.sourceCoords, tripA.routeGeometry with
  | some pB, some rg =>
    if 0 < rg.length then
      match distanceToRoute pB rg with
      | some distanceToARoute =>
        if distanceToARoute ≤ cfg.ROUTE_PROXIMITY_KM then
          { score := acc.score + round ((40 : ℝ) * (1 - distanceToARoute / cfg.ROUTE_PROXIMITY_KM)),
            reasons := acc.reasons ++ [Reason.can_pickup_along_route distanceToARoute],
            details := { acc.details with routeProximity := some distanceToARoute } }
        else acc
      | none => acc
    else acc
  | _, _ => acc

/-- Rule 5 of `calculateMatchScore`: the destination of B along the route
of A (40 points); it does not touch `details`. -/
noncomputable def rule5DropoffAlongA (cfg : MatchingConfig)
    (tripA tripB : ScoreTrip) (acc : MatchResult) : MatchResult :=
  match tripB.destCoords, tripA.routeGeometry with
  | some pB, some rg =>
    if 0 < rg.length then
      match distanceToRoute pB rg with
      | some distanceToARoute =>
        if distanceToARoute ≤ cfg.ROUTE_PROXIMITY_KM then
          { acc with
            score := acc.score + round ((40 : ℝ) * (1 - distanceToARoute / cfg.ROUTE_PROXIMITY_KM)),
            reasons := acc.reasons ++ [Reason.can_dropoff_along_route distanceToARoute] }
        else acc
      | none => acc
    else acc
  | _, _ => acc

/-- Rule 6 of `calculateMatchScore`: the source of A along the route of B
(35 points). -/
noncomputable def rule6ReversePickup (cfg : MatchingConfig)
    (tripA tripB : ScoreTrip) (acc : MatchResult) : MatchResult :=
  match tripA.sourceCoords, tripB.routeGeometry with
  | some pA, some rg =>
    if 0 < rg.length then
      match distanceToRoute pA rg with
      | some distanceToBRoute =>
        if distanceToBRoute ≤ cfg.ROUTE_PROXIMITY_KM then
          { acc with
            score := acc.score + round ((35 : ℝ) * (1 - distanceToBRoute / cfg.ROUTE_PROXIMITY_KM)),
            reasons := acc.reasons ++ [Reason.they_can_pickup distanceToBRoute] }
        else acc
      | none => acc
    else acc
  | _, _ => acc

/-- Rule 7 of `calculateMatchScore`: the destination of A along the route
of B (35 points). -/
noncomputable def rule7ReverseDropoff (cfg : MatchingConfig)
    (tripA tripB : ScoreTrip) (acc : MatchResult) : MatchResult :=
  match tripA.destCoords, tripB.routeGeometry with
  | some pA, some rg =>
    if 0 < rg.length then
      match distanceToRoute pA rg with
      | some distanceToBRoute =>
        if distanceToBRoute ≤ cfg.ROUTE_PROXIMITY_KM then
          { acc with
            score := acc.score + round ((35 : ℝ) * (1 - distanceToBRoute / cfg.ROUTE_PROXIMITY_KM)),
            reasons := acc.reasons ++ [Reason.they_can_dropoff distanceToBRoute] }
        else acc
      | none => acc
    else acc
  | _, _ => acc

/-- Rule 8 of `calculateMatchScore`: same travel date (30 points). -/
def rule8SameTravelDate (tripA tripB : ScoreTrip)
    (acc : MatchResult) : MatchResult :=
  if tripA.travelDate = tripB.travelDate then
    { acc with
      score := acc.score + 30,
      reasons := acc.reasons ++ [Reason.same_travel_date] }
  else acc

/-- Rule 9 of `calculateMatchScore`: compatible transport mode (20
points). -/
def rule9SameTransportMode (tripA tripB : ScoreTrip)
    (acc : MatchResult) : MatchResult :=
  if tripA.transportMode.toLower = tripB.transportMode.toLower then
    { acc with
      score := acc.score + 20,
      reasons := acc.reasons ++ [Reason.same_transport_mode] }
  else acc

/-- The body of `calculateMatchScore` once the configuration is fixed: the
nine rules run in source order on the accumulator started at
`score = 0`, `reasons = []`, `details = {}`. -/
noncomputable def scoreWithConfig (cfg : MatchingConfig)
    (tripA tripB : ScoreTrip) : MatchResult :=
  rule9SameTransportMode tripA tripB
    (rule8SameTravelDate tripA tripB
      (rule7ReverseDropoff cfg tripA tripB
        (rule6ReversePickup cfg tripA tripB
          (rule5DropoffAlongA cfg tripA tripB
            (rule4PickupAlongA cfg tripA tripB
              (rule3SameDestinationName tripA tripB
                (rule2DestinationsNearby cfg tripA tripB
                  (rule1SourcesNearby cfg tripA tripB
                    ⟨0, [], ⟨none, none, none⟩⟩))))))))

/-- `calculateMatchScore` from the source: the effective radius is the
minimum of the two match radii, and the configuration derived from it
drives the nine rules. -/
noncomputable def calculateMatchScore (tripA tripB : ScoreTrip) : MatchResult :=
  scoreWithConfig (getMatchingConfig (min tripA.matchRadius tripB.matchRadius))
    tripA tripB

/-! ## Matching orchestrator (trip-creation POST handler) -/

/-- A stored trip as the orchestrator loop reads it back from the store
(`potentialMatches`): the coordinate strings are modelled as parsed
coordinate pairs, and the nullable `matchRadius` column as an `Option`. -/
structure PotentialMatch where
  id : ℤ
  sourceCoordinates : Option (ℝ × ℝ)
  destinationCoordinates : Option (ℝ × ℝ)
  routeGeometry : Option (List (ℝ × ℝ))
  destination : String
  travelDate : String
  transportMode : String
  matchRadius : Option ℝ

/-- One row the orchestrator batches into `tripMatches`. -/
structure TripMatchInsert where
  tripId : ℤ
  matchedTripId : ℤ
  matchScore : ℤ
  status : String
  createdAt : String

/-- JavaScript `x || 10` on the nullable stored radius: `null` (and the
falsy `0`) fall back to `10`. -/
noncomputable def jsOrTen (x : Option ℝ) : ℝ :=
  match x with
  | none => 10
  | some v => if v = 0 then 10 else v

/-- The comparison record the loop builds for a candidate trip (the second
argument it passes to `calculateMatchScore`). -/
noncomputable def scoreTripOfMatch (potentialMatch : PotentialMatch) : ScoreTrip where
  sourceCoords := potentialMatch.sourceCoordinates
  destCoords := potentialMatch.destinationCoordinates
  routeGeometry := potentialMatch.routeGeometry
  destination := potentialMatch.destination
  travelDate := potentialMatch.travelDate
  transportMode := potentialMatch.transportMode
  matchRadius := jsOrTen potentialMatch.matchRadius

/-- The body of the matching loop of the trip-creation `POST` handler:
score the candidate pair, and when the score reaches `MIN_MATCH_SCORE`
push the two directed match rows (both with the same score and the same
`matchTimestamp`) onto the accumulated batch. -/
noncomputable def matchStep (createdTripId : ℤ) (newTrip : ScoreTrip)
    (matchTimestamp : String) (matchInserts : List TripMatchInsert)
    (potentialMatch : PotentialMatch) : List TripMatchInsert :=
  let matchResult := calculateMatchScore newTrip (scoreTripOfMatch potentialMatch)
  let MATCHING_CONFIG := getMatchingConfig
    (min newTrip.matchRadius (jsOrTen potentialMatch.matchRadius))
  if MATCHING_CONFIG.MIN_MATCH_SCORE ≤ matchResult.score then
    matchInserts ++
      [{ tripId := createdTripId, matchedTripId := potentialMatch.id,
         matchScore := matchResult.score, status := "pending",
         createdAt := matchTimestamp },
       { tripId := potentialMatch.id, matchedTripId := createdTripId,
         matchScore := matchResult.score, status := "pending",
         createdAt := matchTimestamp }]
  else matchInserts

/-- The matching loop of the trip-creation `POST` handler over the
candidate list the store query returns (every active trip of another
user), starting from an empty `matchInserts` batch. -/
noncomputable def runMatching (createdTripId : ℤ) (newTrip : ScoreTrip)
    (potentialMatches : List PotentialMatch) (matchTimestamp : String) :
    List TripMatchInsert :=
  potentialMatches.foldl (matchStep createdTripId newTrip matchTimestamp) []

/-! ## Combined-route builder (waypoint ordering) -/

/-- A group member trip as `calculateCombinedRoute` reads it (the fields
the waypoint extraction touches). -/
structure MemberTrip where
  userId : String
  source : String
  destination : String
  sourceCoordinates : Option (ℝ × ℝ)
  destinationCoordinates : Option (ℝ × ℝ)

/-- A waypoint as `calculateCombinedRoute` builds it; `type` is the
literal string tag of the source ("pickup" / "dropoff"). -/
structure Waypoint where
  lat : ℝ
  lon : ℝ
  type : String
  userId : String
  location : String

/-- The waypoint-collection loop of `calculateCombinedRoute`: per trip,
a pickup waypoint from the source coordinates (when present) followed by
a dropoff waypoint from the destination coordinates (when present). -/
def collectWaypoints (memberTrips : List MemberTrip) : List Waypoint :=
  memberTrips.flatMap (fun trip =>
    (match trip.sourceCoordinates with
     | some c => [{ lat := c.1, lon := c.2, type := "pickup",
                    userId := trip.userId, location := trip.source }]
     | none => []) ++
    (match trip.destinationCoordinates with
     | some c => [{ lat := c.1, lon := c.2, type := "dropoff",
                    userId := trip.userId, location := trip.destination }]
     | none => []))

/-- The ordered waypoint sequence of `calculateCombinedRoute`: all
pickups first, then all dropoffs (the provider request string is built by
mapping over exactly this list). -/
def orderedWaypointsOf (memberTrips : List MemberTrip) : List Waypoint :=
  let waypoints := collectWaypoints memberTrips
  let pickups := waypoints.filter (fun w => w.type == "pickup")
  let dropoffs := waypoints.filter (fun w => w.type == "dropoff")
  pickups ++ dropoffs

/-- The coordinate sequence sent to the routing provider (`lon,lat` pairs
joined into the OSRM request string). -/
def coordinateSequence (memberTrips : List MemberTrip) : List (ℝ × ℝ) :=
  (orderedWaypointsOf memberTrips).map (fun wp => (wp.lon, wp.lat))

/-- Measure used to state the ordering property: pickups rank 0, anything
else rank 1. -/
def waypointRank (w : Waypoint) : ℕ :=
  if w.type == "pickup" then 0 else 1

/-! ## Route alternative analyzer (route-planner POST handler) -/

/-- The transport modes of the analyzer. -/
inductive TransportMode where
  | car
  | cycling
  | walking
  | bus
  | train
  | flight
deriving DecidableEq

/-- Road types the analyzer classifies a candidate into. -/
inductive RouteType where
  | highway
  | mixed
  | urban
deriving DecidableEq

/-- The two scoring objectives `calculateRouteScore` accepts. -/
inductive ScoreObjective where
  | fastest
  | cheapest
deriving DecidableEq

/-- The `optimizationType` tag carried by each returned route. -/
inductive OptimizationType where
  | fastest
  | cheapest
  | balanced
deriving DecidableEq

/-- The overall optimization preference of the request. -/
inductive OptimizationMode where
  | cheapest
  | fastest
deriving DecidableEq

/-- One turn-by-turn instruction record. -/
structure Instruction where
  distance : ℝ
  duration : ℝ
  instruction : String
  name : String
  type : String

/-- One route candidate as returned by the provider (or synthesized by the
fallback): distance in metres, duration in seconds. -/
structure AltRoute where
  coordinates : List (ℝ × ℝ)
  distance : ℝ
  duration : ℝ
  instructions : List Instruction

/-- The `fuelEfficiencyRates` table of `estimateFuelCost`. -/
noncomputable def fuelEfficiencyRates (mode : TransportMode) (routeType : RouteType) : ℝ :=
  match mode, routeType with
  | TransportMode.car, RouteType.highway => 6.5
  | TransportMode.car, RouteType.mixed => 8.0
  | TransportMode.car, RouteType.urban => 10.0
  | TransportMode.cycling, _ => 0
  | TransportMode.walking, _ => 0
  | TransportMode.bus, RouteType.highway => 2.0
  | TransportMode.bus, RouteType.mixed => 2.5
  | TransportMode.bus, RouteType.urban => 3.0
  | TransportMode.train, RouteType.highway => 1.5
  | TransportMode.train, RouteType.mixed => 1.8
  | TransportMode.train, RouteType.urban => 2.0
  | TransportMode.flight, _ => 15.0

/-- `estimateFuelCost` from the source: per-mode, per-road-type rate times
distance, times the fixed fuel price. -/
noncomputable def estimateFuelCost (distanceKm : ℝ) (mode : TransportMode)
    (routeType : RouteType) : ℝ :=
  let fuelPricePerLiter : ℝ := 1.5
  let efficiency := fuelEfficiencyRates mode routeType
  let fuelUsed := distanceKm * efficiency / 100
  fuelUsed * fuelPricePerLiter

/-- The `expectedSpeeds` table of `estimateTrafficFactor` (km/h). -/
def expectedSpeeds (mode : TransportMode) : ℝ :=
  match mode with
  | TransportMode.car => 80
  | TransportMode.cycling => 20
  | TransportMode.walking => 5
  | TransportMode.bus => 60
  | TransportMode.train => 100
  | TransportMode.flight => 500

/-- `estimateTrafficFactor` from the source: expected speed over observed
average speed, at least 1, capped at 3. -/
noncomputable def estimateTrafficFactor (distance duration : ℝ)
    (mode : TransportMode) : ℝ :=
  let avgSpeed := (distance / 1000) / (duration / 3600)
  let expected := expectedSpeeds mode
  let trafficFactor := max 1 (expected / avgSpeed)
  min trafficFactor 3

/-- The record `calculateRouteScore` returns. -/
structure RouteScoreResult where
  cost : ℝ
  score : ℝ
  fuelEfficiency : ℝ
  trafficFactor : ℝ

/-- `calculateRouteScore` from the source. -/
noncomputable def calculateRouteScore (distance duration : ℝ)
    (mode : TransportMode) (optimizationType : ScoreObjective) :
    RouteScoreResult :=
  let distanceKm := distance / 1000
  let durationHours := duration / 3600
  let avgSpeed := distanceKm / durationHours
  let routeType : RouteType :=
    if mode = TransportMode.car then
      (if 70 < avgSpeed then RouteType.highway
       else if avgSpeed < 40 then RouteType.urban
       else RouteType.mixed)
    else RouteType.mixed
  let fuelCost := estimateFuelCost distanceKm mode routeType
  let trafficFactor := estimateTrafficFactor distance duration mode
  let fuelEfficiency := if 0 < fuelCost then 100 / (fuelCost / distanceKm) else 100
  let score := match optimizationType with
    | ScoreObjective.cheapest => fuelCost
    | ScoreObjective.fastest => duration * trafficFactor
  { cost := fuelCost, score := score, fuelEfficiency := fuelEfficiency,
    trafficFactor := trafficFactor }

/-- One element of the `analyzedRoutes` array.  `allocId` models
JavaScript object identity (the array index of the element); it is what
the `!==` comparisons of the handler compare. -/
structure AnalyzedRoute where
  route : AltRoute
  cheapestScore : ℝ
  fastestScore : ℝ
  cost : ℝ
  fuelEfficiency : ℝ
  trafficFactor : ℝ
  allocId : ℕ

/-- The object `{...r, balancedScore}` built inside the balanced block.
The object spread allocates a fresh object, so its identity is distinct
from every element of `analyzedRoutes`; the fresh `allocId` records
that. -/
structure BalancedRoute extends AnalyzedRoute where
  balancedScore : ℝ

/-- The `analyzedRoutes` map of the handler: both scoring passes per
candidate. -/
noncomputable def analyzedRoutesOf (alternativeRoutes : List AltRoute)
    (transportMode : TransportMode) : List AnalyzedRoute :=
  alternativeRoutes.enum.map (fun ir =>
    let cheapestAnalysis := calculateRouteScore ir.2.distance ir.2.duration
      transportMode ScoreObjective.cheapest
    let fastestAnalysis := calculateRouteScore ir.2.distance ir.2.duration
      transportMode ScoreObjective.fastest
    { route := ir.2,
      cheapestScore := cheapestAnalysis.score,
      fastestScore := fastestAnalysis.score,
      cost := cheapestAnalysis.cost,
      fuelEfficiency := cheapestAnalysis.fuelEfficiency,
      trafficFactor := cheapestAnalysis.trafficFactor,
      allocId := ir.1 })

/-- Stable insertion of `a` into a list already sorted by `key`, before
the first element whose key is at least `key a`. -/
noncomputable def insertStable {α : Type} (key : α → ℝ) (a : α) :
    List α → List α
  | [] => [a]
  | b :: bs =>
    if key a ≤ key b then a :: b :: bs else b :: insertStable key a bs

/-- A model of ES2019 `Array.prototype.sort` with comparator
`(a, b) => key a - key b`: the stable ascending sort by `key` (insertion
sort, extensionally equal to any stable sort). -/
noncomputable def jsSortBy {α : Type} (key : α → ℝ) (l : List α) : List α :=
  l.foldr (insertStable key) []

/-- The route record the handler pushes into `routes` (the `RouteData`
shape of the source; the three pushes are identical up to the
`optimizationType` tag). -/
structure RouteData where
  coordinates : List (ℝ × ℝ)
  distance : ℝ
  duration : ℝ
  cost : ℝ
  mode : TransportMode
  optimizationType : OptimizationType
  fuelEfficiency : ℝ
  trafficFactor : ℝ
  instructions : List Instruction

/-- Builds one `RouteData` push from an analyzed route. -/
def mkRouteData (analyzed : AnalyzedRoute) (tag : OptimizationType)
    (transportMode : TransportMode) : RouteData where
  coordinates := analyzed.route.coordinates
  distance := analyzed.route.distance
  duration := analyzed.route.duration
  cost := analyzed.cost
  mode := transportMode
  optimizationType := tag
  fuelEfficiency := analyzed.fuelEfficiency
  trafficFactor := analyzed.trafficFactor
  instructions := analyzed.route.instructions

/-- JavaScript `x || 1` on the traffic factor used by the final sort. -/
noncomputable def jsOrOne (x : ℝ) : ℝ :=
  if x = 0 then 1 else x

/-- The selection pipeline of the route-planner `POST` handler, from the
`analyzedRoutes` map to the final re-sorted `routes` array: cheapest pick,
fastest pick (only when its object differs from the cheapest pick),
balanced pick (only when more than two candidates exist; the `!==` tests
there compare the freshly allocated spread objects of `balancedRoutes`
against elements of `analyzedRoutes`), then the re-sort by the caller
preference. -/
noncomputable def analyzeAlternatives (alternativeRoutes : List AltRoute)
    (transportMode : TransportMode) (optimizationMode : OptimizationMode) :
    List RouteData :=
  let analyzedRoutes := analyzedRoutesOf alternativeRoutes transportMode
  let sortedByCost := jsSortBy (fun a => a.cheapestScore) analyzedRoutes
  let sortedBySpeed := jsSortBy (fun a => a.fastestScore) analyzedRoutes
  let routes1 : List RouteData :=
    match sortedByCost.head? with
    | some analyzed => [mkRouteData analyzed OptimizationType.cheapest transportMode]
    | none => []
  let routes2 : List RouteData :=
    match sortedBySpeed.head? with
    | some analyzed =>
      if sortedByCost.head?.map (fun a => a.allocId) ≠ some analyzed.allocId then
        routes1 ++ [mkRouteData analyzed OptimizationType.fastest transportMode]
      else routes1
    | none => routes1
  let routes3 : List RouteData :=
    if 2 < analyzedRoutes.length then
      match sortedByCost.head?, sortedBySpeed.head? with
      | some c0, some s0 =>
        let balancedRoutes := jsSortBy (fun b => b.balancedScore)
          (analyzedRoutes.enum.map (fun ir =>
            ({ toAnalyzedRoute := { ir.2 with allocId := analyzedRoutes.length + ir.1 },
               balancedScore := ir.2.cheapestScore / c0.cheapestScore +
                 ir.2.fastestScore / s0.fastestScore } : BalancedRoute)))
        match balancedRoutes.head? with
        | some balanced =>
          if balanced.allocId ≠ c0.allocId ∧ balanced.allocId ≠ s0.allocId then
            routes2 ++ [mkRouteData balanced.toAnalyzedRoute OptimizationType.balanced transportMode]
          else routes2
        | none => routes2
      | _, _ => routes2
    else routes2
  match optimizationMode with
  | OptimizationMode.fastest =>
    jsSortBy (fun a => a.duration * jsOrOne a.trafficFactor) routes3
  | OptimizationMode.cheapest =>
    jsSortBy (fun a => a.cost) routes3

/-- The fallback direct route the handler synthesizes when the provider
returns zero candidates.  Coordinates are `(lon, lat)` pairs as geocoded
by this handler.  Note the duration expression of the source,
`straightDistance * 1.3 / 1000 / 60 * 60`: the `/ 60 * 60` cancels, so
the stored value is numerically the inflated distance in kilometres. -/
noncomputable def fallbackDirectRoute (startCoords destCoords : ℝ × ℝ)
    (destination : String) : AltRoute :=
  let R : ℝ := 6371
  let dLat := toRad (destCoords.2 - startCoords.2)
  let dLon := toRad (destCoords.1 - startCoords.1)
  let lat1 := toRad startCoords.2
  let lat2 := toRad destCoords.2
  let a := sin (dLat / 2) * sin (dLat / 2) +
    sin (dLon / 2) * sin (dLon / 2) * cos lat1 * cos lat2
  let c := 2 * atan2 (√a) (√(1 - a))
  let straightDistance := R * c * 1000
  { coordinates := [startCoords, destCoords],
    distance := straightDistance * 1.3,
    duration := straightDistance * 1.3 / 1000 / 60 * 60,
    instructions := [{ distance := straightDistance * 1.3,
                       duration := straightDistance * 1.3 / 1000 / 60 * 60,
                       instruction := "Head towards " ++ destination,
                       name := "Direct route",
                       type := "depart" }] }

/-! ## Concrete inputs used by witnesses and counterexamples -/

/-- A point on the equator `d` kilometres east of the origin uses this
longitude (see `calculateDistance_equator`). -/
noncomputable def equatorLon (d : ℝ) : ℝ :=
  d * 180 / (6371 * π)

/-- A trip with identical source and destination at the origin. -/
def tripIdent : ScoreTrip where
  sourceCoords := some (0, 0)
  destCoords := some (0, 0)
  routeGeometry := none
  destination := "Central Station"
  travelDate := "2025-06-01"
  transportMode := "car"
  matchRadius := 10

/-- Witness trip for the boundary case: source at the origin, radius 10. -/
def tripBoundaryA : ScoreTrip where
  sourceCoords := some (0, 0)
  destCoords := none
  routeGeometry := none
  destination := "somewhere"
  travelDate := "2025-06-01"
  transportMode := "car"
  matchRadius := 10

/-- Witness trip for the boundary case: source exactly 10 km east on the
equator, radius 10, so the measured source distance equals the effective
radius. -/
noncomputable def tripBoundaryB : ScoreTrip where
  sourceCoords := some (0, equatorLon 10)
  destCoords := none
  routeGeometry := none
  destination := "elsewhere"
  travelDate := "2025-07-01"
  transportMode := "bus"
  matchRadius := 10

/-- Counterexample trip: source at the origin, radius 10. -/
def tripFarA : ScoreTrip where
  sourceCoords := some (0, 0)
  destCoords := none
  routeGeometry := none
  destination := "near the coast"
  travelDate := "2025-06-01"
  transportMode := "car"
  matchRadius := 10

/-- Counterexample trip: source 50 km east on the equator, radius 10, so
the measured source distance (50 km) exceeds the effective radius. -/
noncomputable def tripFarB : ScoreTrip where
  sourceCoords := some (0, equatorLon 50)
  destCoords := none
  routeGeometry := none
  destination := "inland"
  travelDate := "2025-07-01"
  transportMode := "bus"
  matchRadius := 10

/-- Witness trip with the narrow radius 1. -/
def tripNarrow : ScoreTrip where
  sourceCoords := some (0, 0)
  destCoords := none
  routeGeometry := none
  destination := "north end"
  travelDate := "2025-06-01"
  transportMode := "car"
  matchRadius := 1

/-- Witness trip with the wide radius 100; its source is 50 km away, so
the distance is admissible under the wide radius but not the narrow
one. -/
noncomputable def tripWide : ScoreTrip where
  sourceCoords := some (0, equatorLon 50)
  destCoords := none
  routeGeometry := none
  destination := "south end"
  travelDate := "2025-07-01"
  transportMode := "bus"
  matchRadius := 100

/-- Concrete analyzer candidate: 50 km in one hour (mixed driving). -/
def routeCandA : AltRoute where
  coordinates := []
  distance := 50000
  duration := 3600
  instructions := []

/-- Concrete analyzer candidate: 60 km in two hours (urban driving). -/
def routeCandB : AltRoute where
  coordinates := []
  distance := 60000
  duration := 7200
  instructions := []

/-- Concrete analyzer candidate: 80 km in ninety minutes (mixed
driving). -/
def routeCandC : AltRoute where
  coordinates := []
  distance := 80000
  duration := 5400
  instructions := []

/-- The analyzed record of `routeCandA` under car mode (50 km/h average:
mixed driving, cost 6, traffic factor 1.6). -/
noncomputable def analyzedA : AnalyzedRoute where
  route := routeCandA
  cheapestScore := 6
  fastestScore := 5760
  cost := 6
  fuelEfficiency := 2500 / 3
  trafficFactor := 8 / 5
  allocId := 0

/-- The analyzed record of `routeCandB` under car mode (30 km/h average:
urban driving, cost 9, traffic factor 8/3). -/
noncomputable def analyzedB : AnalyzedRoute where
  route := routeCandB
  cheapestScore := 9
  fastestScore := 19200
  cost := 9
  fuelEfficiency := 2000 / 3
  trafficFactor := 8 / 3
  allocId := 1

/-- The analyzed record of `routeCandC` under car mode (160/3 km/h
average: mixed driving, cost 9.6, traffic factor 1.5). -/
noncomputable def analyzedC : AnalyzedRoute where
  route := routeCandC
  cheapestScore := 48 / 5
  fastestScore := 8100
  cost := 48 / 5
  fuelEfficiency := 2500 / 3
  trafficFactor := 3 / 2
  allocId := 2

/-! ## Geometry lemmas -/

/-- `Math.atan2` applied to `√(sin² θ)` and `√(1 − sin² θ)` recovers `θ` on
`[0, π/2)`: the core step of evaluating the haversine formula. -/
theorem atan2_sqrt_sin_sq (θ : ℝ) (h0 : 0 ≤ θ) (h1 : θ < π / 2) :
    atan2 (√(sin θ * sin θ)) (√(1 - sin θ * sin θ)) = θ := by
  have hπ : (0:ℝ) < π := Real.pi_pos
  have hs : 0 ≤ sin θ := Real.sin_nonneg_of_nonneg_of_le_pi h0 (by nlinarith)
  have hc : 0 < cos θ := Real.cos_pos_of_mem_Ioo ⟨by nlinarith, h1⟩
  have h2 : 1 - sin θ * sin θ = cos θ * cos θ := by nlinarith [Real.sin_sq_add_cos_sq θ]
  rw [Real.sqrt_mul_self hs, h2, Real.sqrt_mul_self hc.le, atan2, if_pos hc]
  rw [← Real.tan_eq_sin_div_cos]
  exact Real.arctan_tan (by nlinarith) h1

/-- The haversine distance from a point to itself is `0`. -/
theorem calculateDistance_self (p : ℝ × ℝ) : calculateDistance p p = 0 := by
  simp [calculateDistance, toRad, atan2, Real.arctan_zero]

/-- Two points on the equator whose longitudes differ by
`d·180/(6371·π)` degrees are exactly `d` kilometres apart (for
`0 ≤ d ≤ 19000`, which keeps the half central angle below `π/2`).
Supplies concrete inputs at any prescribed distance. -/
theorem calculateDistance_equator (d : ℝ) (h0 : 0 ≤ d) (h19 : d ≤ 19000) :
    calculateDistance (0, 0) (0, d * 180 / (6371 * π)) = d := by
  have hπ : (0:ℝ) < π := Real.pi_pos
  have hπ3 : (3:ℝ) < π := Real.pi_gt_three
  have hE : d * 180 / (6371 * π) * (π / 180) / 2 = d / 6371 / 2 := by
    field_simp
    ring
  have hθ0 : 0 ≤ d / 6371 / 2 := by positivity
  have hθπ : d / 6371 / 2 < π / 2 := by nlinarith
  simp only [calculateDistance, toRad, Prod.fst, Prod.snd, sub_self, sub_zero,
    zero_mul, zero_div, Real.sin_zero, Real.cos_zero, mul_zero, zero_add,
    mul_one]
  rw [hE, atan2_sqrt_sin_sq _ hθ0 hθπ]
  field_simp
  ring

/-- `round` of a nonnegative real is nonnegative. -/
theorem round_nonneg_of_nonneg {x : ℝ} (h : 0 ≤ x) : 0 ≤ round x := by
  rw [round_eq]
  exact Int.le_floor.2 (by push_cast; linarith)

/-- The proximity contribution `round (w·(1 − d/T))` is nonnegative
whenever the rule fires (`d ≤ T`, `T > 0`, `w ≥ 0`). -/
theorem round_proximity_nonneg {w d T : ℝ} (hw : 0 ≤ w) (hT : 0 < T)
    (hd : d ≤ T) : 0 ≤ round (w * (1 - d / T)) := by
  have h1 : d / T ≤ 1 := (div_le_one hT).2 hd
  exact round_nonneg_of_nonneg (by nlinarith)

/-! ## Rule-level lemmas for the match scorer -/

/-- Rule 1 when both sources are present and the distance is within the
radius: full characterization of the result. -/
theorem rule1_eq_near (cfg : MatchingConfig) (A B : ScoreTrip)
    (acc : MatchResult) (pa pb : ℝ × ℝ)
    (hA : A.sourceCoords = some pa) (hB : B.sourceCoords = some pb)
    (hle : calculateDistance pa pb ≤ cfg.SOURCE_RADIUS_KM) :
    rule1SourcesNearby cfg A B acc =
      { score := acc.score + round ((45 : ℝ) * (1 - calculateDistance pa pb / cfg.SOURCE_RADIUS_KM)),
        reasons := acc.reasons ++ [Reason.starting_points_nearby (calculateDistance pa pb)],
        details := { acc.details with sourceDistance := some (calculateDistance pa pb) } } := by
  simp only [rule1SourcesNearby, hA, hB, if_pos hle]

/-- Rule 1 when both sources are present but the distance exceeds the
radius: only `details.sourceDistance` is recorded. -/
theorem rule1_eq_far (cfg : MatchingConfig) (A B : ScoreTrip)
    (acc : MatchResult) (pa pb : ℝ × ℝ)
    (hA : A.sourceCoords = some pa) (hB : B.sourceCoords = some pb)
    (hgt : ¬ calculateDistance pa pb ≤ cfg.SOURCE_RADIUS_KM) :
    rule1SourcesNearby cfg A B acc =
      { acc with details := { acc.details with sourceDistance := some (calculateDistance pa pb) } } := by
  simp only [rule1SourcesNearby, hA, hB, if_neg hgt]

/-- Rule 2 when both destinations are present and nearby. -/
theorem rule2_eq_near (cfg : MatchingConfig) (A B : ScoreTrip)
    (acc : MatchResult) (pa pb : ℝ × ℝ)
    (hA : A.destCoords = some pa) (hB : B.destCoords = some pb)
    (hle : calculateDistance pa pb ≤ cfg.DESTINATION_RADIUS_KM) :
    rule2DestinationsNearby cfg A B acc =
      { score := acc.score + round ((45 : ℝ) * (1 - calculateDistance pa pb / cfg.DESTINATION_RADIUS_KM)),
        reasons := acc.reasons ++ [Reason.destinations_nearby (calculateDistance pa pb)],
        details := { acc.details with destinationDistance := some (calculateDistance pa pb) } } := by
  simp only [rule2DestinationsNearby, hA, hB, if_pos hle]

/-- Rule 3 when the trimmed lowercased destination names agree. -/
theorem rule3_eq_same (A B : ScoreTrip) (acc : MatchResult)
    (h : A.destination.toLower.trim = B.destination.toLower.trim) :
    rule3SameDestinationName A B acc =
      { acc with
        score := acc.score + 10,
        reasons := acc.reasons ++ [Reason.same_destination_name] } := by
  simp only [rule3SameDestinationName, if_pos h]

/-- Rule 8 when the travel dates agree. -/
theorem rule8_eq_same (A B : ScoreTrip) (acc : MatchResult)
    (h : A.travelDate = B.travelDate) :
    rule8SameTravelDate A B acc =
      { acc with
        score := acc.score + 30,
        reasons := acc.reasons ++ [Reason.same_travel_date] } := by
  simp only [rule8SameTravelDate, if_pos h]

/-- Rule 9 when the lowercased transport modes agree. -/
theorem rule9_eq_same (A B : ScoreTrip) (acc : MatchResult)
    (h : A.transportMode.toLower = B.transportMode.toLower) :
    rule9SameTransportMode A B acc =
      { acc with
        score := acc.score + 20,
        reasons := acc.reasons ++ [Reason.same_transport_mode] } := by
  simp only [rule9SameTransportMode, if_pos h]

/-- Every rule only ever appends to the reasons list (rule 1). -/
theorem rule1_reasons_mono (cfg : MatchingConfig) (A B : ScoreTrip)
    (acc : MatchResult) :
    ∃ t, (rule1SourcesNearby cfg A B acc).reasons = acc.reasons ++ t := by
  unfold rule1SourcesNearby
  dsimp only
  repeat' split
  all_goals first
    | exact ⟨[], (List.append_nil _).symm⟩
    | exact ⟨_, rfl⟩

/-- Every rule only ever appends to the reasons list (rule 2). -/
theorem rule2_reasons_mono (cfg : MatchingConfig) (A B : ScoreTrip)
    (acc : MatchResult) :
    ∃ t, (rule2DestinationsNearby cfg A B acc).reasons = acc.reasons ++ t := by
  unfold rule2DestinationsNearby
  dsimp only
  repeat' split
  all_goals first
    | exact ⟨[], (List.append_nil _).symm⟩
    | exact ⟨_, rfl⟩

/-- Every rule only ever appends to the reasons list (rule 3). -/
theorem rule3_reasons_mono (A B : ScoreTrip) (acc : MatchResult) :
    ∃ t, (rule3SameDestinationName A B acc).reasons = acc.reasons ++ t := by
  unfold rule3SameDestinationName
  split
  · exact ⟨_, rfl⟩
  · exact ⟨[], (List.append_nil _).symm⟩

/-- Every rule only ever appends to the reasons list (rule 4). -/
theorem rule4_reasons_mono (cfg : MatchingConfig) (A B : ScoreTrip)
    (acc : MatchResult) :
    ∃ t, (rule4PickupAlongA cfg A B acc).reasons = acc.reasons ++ t := by
  unfold rule4PickupAlongA
  repeat' split
  all_goals first
    | exact ⟨[], (List.append_nil _).symm⟩
    | exact ⟨_, rfl⟩

/-- Every rule only ever appends to the reasons list (rule 5). -/
theorem rule5_reasons_mono (cfg : MatchingConfig) (A B : ScoreTrip)
    (acc : MatchResult) :
    ∃ t, (rule5DropoffAlongA cfg A B acc).reasons = acc.reasons ++ t := by
  unfold rule5DropoffAlongA
  repeat' split
  all_goals first
    | exact ⟨[], (List.append_nil _).symm⟩
    | exact ⟨_, rfl⟩

/-- Every rule only ever appends to the reasons list (rule 6). -/
theorem rule6_reasons_mono (cfg : MatchingConfig) (A B : ScoreTrip)
    (acc : MatchResult) :
    ∃ t, (rule6ReversePickup cfg A B acc).reasons = acc.reasons ++ t := by
  unfold rule6ReversePickup
  repeat' split
  all_goals first
    | exact ⟨[], (List.append_nil _).symm⟩
    | exact ⟨_, rfl⟩

/-- Every rule only ever appends to the reasons list (rule 7). -/
theorem rule7_reasons_mono (cfg : MatchingConfig) (A B : ScoreTrip)
    (acc : MatchResult) :
    ∃ t, (rule7ReverseDropoff cfg A B acc).reasons = acc.reasons ++ t := by
  unfold rule7ReverseDropoff
  repeat' split
  all_goals first
    | exact ⟨[], (List.append_nil _).symm⟩
    | exact ⟨_, rfl⟩

/-- Every rule only ever appends to the reasons list (rule 8). -/
theorem rule8_reasons_mono (A B : ScoreTrip) (acc : MatchResult) :
    ∃ t, (rule8SameTravelDate A B acc).reasons = acc.reasons ++ t := by
  unfold rule8SameTravelDate
  split
  · exact ⟨_, rfl⟩
  · exact ⟨[], (List.append_nil _).symm⟩

/-- Every rule only ever appends to the reasons list (rule 9). -/
theorem rule9_reasons_mono (A B : ScoreTrip) (acc : MatchResult) :
    ∃ t, (rule9SameTransportMode A B acc).reasons = acc.reasons ++ t := by
  unfold rule9SameTransportMode
  split
  · exact ⟨_, rfl⟩
  · exact ⟨[], (List.append_nil _).symm⟩

/-- What rule 1 leaves in `details.sourceDistance`: the raw distance as
soon as both source coordinates are present, radius test or not. -/
theorem rule1_details_sourceDistance (cfg : MatchingConfig)
    (A B : ScoreTrip) (acc : MatchResult) :
    (rule1SourcesNearby cfg A B acc).details.sourceDistance =
      match A.sourceCoords, B.sourceCoords with
      | some pa, some pb => some (calculateDistance pa pb)
      | _, _ => acc.details.sourceDistance := by
  unfold rule1SourcesNearby
  dsimp only
  repeat' split
  all_goals rfl

/-- Rule 1 does not touch `details.destinationDistance`. -/
theorem rule1_details_destinationDistance (cfg : MatchingConfig)
    (A B : ScoreTrip) (acc : MatchResult) :
    (rule1SourcesNearby cfg A B acc).details.destinationDistance =
      acc.details.destinationDistance := by
  unfold rule1SourcesNearby
  dsimp only
  repeat' split
  all_goals rfl

/-- Rule 1 does not touch `details.routeProximity`. -/
theorem rule1_details_routeProximity (cfg : MatchingConfig)
    (A B : ScoreTrip) (acc : MatchResult) :
    (rule1SourcesNearby cfg A B acc).details.routeProximity =
      acc.details.routeProximity := by
  unfold rule1SourcesNearby
  dsimp only
  repeat' split
  all_goals rfl

/-- What rule 2 leaves in `details.destinationDistance`. -/
theorem rule2_details_destinationDistance (cfg : MatchingConfig)
    (A B : ScoreTrip) (acc : MatchResult) :
    (rule2DestinationsNearby cfg A B acc).details.destinationDistance =
      match A.destCoords, B.destCoords with
      | some pa, some pb => some (calculateDistance pa pb)
      | _, _ => acc.details.destinationDistance := by
  unfold rule2DestinationsNearby
  dsimp only
  repeat' split
  all_goals rfl

/-- Rule 2 does not touch `details.sourceDistance`. -/
theorem rule2_details_sourceDistance (cfg : MatchingConfig)
    (A B : ScoreTrip) (acc : MatchResult) :
    (rule2DestinationsNearby cfg A B acc).details.sourceDistance =
      acc.details.sourceDistance := by
  unfold rule2DestinationsNearby
  dsimp only
  repeat' split
  all_goals rfl

/-- Rule 2 does not touch `details.routeProximity`. -/
theorem rule2_details_routeProximity (cfg : MatchingConfig)
    (A B : ScoreTrip) (acc : MatchResult) :
    (rule2DestinationsNearby cfg A B acc).details.routeProximity =
      acc.details.routeProximity := by
  unfold rule2DestinationsNearby
  dsimp only
  repeat' split
  all_goals rfl

/-- Rule 3 does not touch `details` at all. -/
theorem rule3_details (A B : ScoreTrip) (acc : MatchResult) :
    (rule3SameDestinationName A B acc).details = acc.details := by
  unfold rule3SameDestinationName
  split
  all_goals rfl

/-- What rule 4 leaves in `details.routeProximity`: set exactly when the
rule fires. -/
theorem rule4_details_routeProximity (cfg : MatchingConfig)
    (A B : ScoreTrip) (acc : MatchResult) :
    (rule4PickupAlongA cfg A B acc).details.routeProximity =
      match B.sourceCoords, A.routeGeometry with
      | some pb, some rg =>
        if 0 < rg.length then
          match distanceToRoute pb rg with
          | some d =>
            if d ≤ cfg.ROUTE_PROXIMITY_KM then some d
            else acc.details.routeProximity
          | none => acc.details.routeProximity
        else acc.details.routeProximity
      | _, _ => acc.details.routeProximity := by
  unfold rule4PickupAlongA
  repeat' split
  all_goals rfl

/-- Rule 4 does not touch `details.sourceDistance`. -/
theorem rule4_details_sourceDistance (cfg : MatchingConfig)
    (A B : ScoreTrip) (acc : MatchResult) :
    (rule4PickupAlongA cfg A B acc).details.sourceDistance =
      acc.details.sourceDistance := by
  unfold rule4PickupAlongA
  repeat' split
  all_goals rfl

/-- Rule 4 does not touch `details.destinationDistance`. -/
theorem rule4_details_destinationDistance (cfg : MatchingConfig)
    (A B : ScoreTrip) (acc : MatchResult) :
    (rule4PickupAlongA cfg A B acc).details.destinationDistance =
      acc.details.destinationDistance := by
  unfold rule4PickupAlongA
  repeat' split
  all_goals rfl

/-- Rule 5 does not touch `details` at all (unlike rule 4, it never
records its measured distance). -/
theorem rule5_details (cfg : MatchingConfig) (A B : ScoreTrip)
    (acc : MatchResult) :
    (rule5DropoffAlongA cfg A B acc).details = acc.details := by
  unfold rule5DropoffAlongA
  repeat' split
  all_goals rfl

/-- Rule 6 does not touch `details` at all. -/
theorem rule6_details (cfg : MatchingConfig) (A B : ScoreTrip)
    (acc : MatchResult) :
    (rule6ReversePickup cfg A B acc).details = acc.details := by
  unfold rule6ReversePickup
  repeat' split
  all_goals rfl

/-- Rule 7 does not touch `details` at all. -/
theorem rule7_details (cfg : MatchingConfig) (A B : ScoreTrip)
    (acc : MatchResult) :
    (rule7ReverseDropoff cfg A B acc).details = acc.details := by
  unfold rule7ReverseDropoff
  repeat' split
  all_goals rfl

/-- Rule 8 does not touch `details` at all. -/
theorem rule8_details (A B : ScoreTrip) (acc : MatchResult) :
    (rule8SameTravelDate A B acc).details = acc.details := by
  unfold rule8SameTravelDate
  split
  all_goals rfl

/-- Rule 9 does not touch `details` at all. -/
theorem rule9_details (A B : ScoreTrip) (acc : MatchResult) :
    (rule9SameTransportMode A B acc).details = acc.details := by
  unfold rule9SameTransportMode
  split
  all_goals rfl

/-- Rule 4 never decreases the score (its contribution, when it fires, is
a nonnegative rounded value). -/
theorem rule4_score_mono (cfg : MatchingConfig) (A B : ScoreTrip)
    (acc : MatchResult) (hT : 0 < cfg.ROUTE_PROXIMITY_KM) :
    acc.score ≤ (rule4PickupAlongA cfg A B acc).score := by
  unfold rule4PickupAlongA
  repeat' split
  all_goals try exact le_refl _
  all_goals
    exact le_add_of_nonneg_right
      (round_proximity_nonneg (by norm_num) hT (by assumption))

/-- Rule 5 never decreases the score. -/
theorem rule5_score_mono (cfg : MatchingConfig) (A B : ScoreTrip)
    (acc : MatchResult) (hT : 0 < cfg.ROUTE_PROXIMITY_KM) :
    acc.score ≤ (rule5DropoffAlongA cfg A B acc).score := by
  unfold rule5DropoffAlongA
  repeat' split
  all_goals try exact le_refl _
  all_goals
    exact le_add_of_nonneg_right
      (round_proximity_nonneg (by norm_num) hT (by assumption))

/-- Rule 6 never decreases the score. -/
theorem rule6_score_mono (cfg : MatchingConfig) (A B : ScoreTrip)
    (acc : MatchResult) (hT : 0 < cfg.ROUTE_PROXIMITY_KM) :
    acc.score ≤ (rule6ReversePickup cfg A B acc).score := by
  unfold rule6ReversePickup
  repeat' split
  all_goals try exact le_refl _
  all_goals
    exact le_add_of_nonneg_right
      (round_proximity_nonneg (by norm_num) hT (by assumption))

/-- Rule 7 never decreases the score. -/
theorem rule7_score_mono (cfg : MatchingConfig) (A B : ScoreTrip)
    (acc : MatchResult) (hT : 0 < cfg.ROUTE_PROXIMITY_KM) :
    acc.score ≤ (rule7ReverseDropoff cfg A B acc).score := by
  unfold rule7ReverseDropoff
  repeat' split
  all_goals try exact le_refl _
  all_goals
    exact le_add_of_nonneg_right
      (round_proximity_nonneg (by norm_num) hT (by assumption))

/-! ## Claim theorems: match scorer -/

/-- C6: for trips with both source coordinates present and effective
radius `R = min` of the radii (positive), the sources-nearby rule adds
exactly `round (45·(1 − d/R))` to the score whenever it fires; at
`d = R` that contribution is `round (45·(1 − 1)) = 0`, and at `d = 0` it
is the full `45`. -/
theorem sources_nearby_boundary_contribution
    (A B : ScoreTrip) (acc : MatchResult) (pa pb : ℝ × ℝ)
    (hA : A.sourceCoords = some pa) (hB : B.sourceCoords = some pb)
    (hR : 0 < min A.matchRadius B.matchRadius)
    (hle : calculateDistance pa pb ≤ min A.matchRadius B.matchRadius) :
    (rule1SourcesNearby (getMatchingConfig (min A.matchRadius B.matchRadius)) A B acc).score
        = acc.score + round ((45 : ℝ) * (1 - calculateDistance pa pb / min A.matchRadius B.matchRadius)) ∧
      (calculateDistance pa pb = min A.matchRadius B.matchRadius →
        round ((45 : ℝ) * (1 - calculateDistance pa pb / min A.matchRadius B.matchRadius)) = 0) ∧
      (calculateDistance pa pb = 0 →
        round ((45 : ℝ) * (1 - calculateDistance pa pb / min A.matchRadius B.matchRadius)) = 45) := by
  refine ⟨?_, ?_, ?_⟩
  · rw [rule1_eq_near (getMatchingConfig (min A.matchRadius B.matchRadius)) A B acc pa pb hA hB hle]
    rfl
  · intro hd
    rw [hd, div_self (ne_of_gt hR)]
    norm_num
  · intro hd
    rw [hd, zero_div]
    norm_num [round_eq]

/-- Witness for `sources_nearby_boundary_contribution` at a concrete
input: identical sources at the origin (distance 0), radius 10, full 45
contribution. -/
theorem sources_nearby_boundary_contribution_witness :
    (rule1SourcesNearby (getMatchingConfig (min tripBoundaryA.matchRadius tripBoundaryA.matchRadius))
        tripBoundaryA tripBoundaryA ⟨0, [], ⟨none, none, none⟩⟩).score = 0 + 45 := by
  obtain ⟨h1, _, h3⟩ := sources_nearby_boundary_contribution tripBoundaryA tripBoundaryA
    ⟨0, [], ⟨none, none, none⟩⟩ (0, 0) (0, 0) rfl rfl
    (by norm_num [tripBoundaryA])
    (by rw [calculateDistance_self]; norm_num [tripBoundaryA])
  rw [h1, h3 (calculateDistance_self _)]

/-- C5: two trips with identical source and destination coordinates,
matching destination names (trimmed, lowercased), equal travel dates,
case-insensitively equal transport modes and both radii at least 1 score
at least 150 (= 45 + 45 + 10 + 30 + 20). -/
theorem identical_trips_score_at_least_150
    (A B : ScoreTrip) (p q : ℝ × ℝ)
    (hAs : A.sourceCoords = some p) (hBs : B.sourceCoords = some p)
    (hAd : A.destCoords = some q) (hBd : B.destCoords = some q)
    (hname : A.destination.toLower.trim = B.destination.toLower.trim)
    (hdate : A.travelDate = B.travelDate)
    (hmode : A.transportMode.toLower = B.transportMode.toLower)
    (hA1 : 1 ≤ A.matchRadius) (hB1 : 1 ≤ B.matchRadius) :
    150 ≤ (calculateMatchScore A B).score := by
  have hRmin : (1 : ℝ) ≤ min A.matchRadius B.matchRadius := le_min hA1 hB1
  unfold calculateMatchScore scoreWithConfig
  set cfg := getMatchingConfig (min A.matchRadius B.matchRadius) with hcfg
  set a1 := rule1SourcesNearby cfg A B ⟨0, [], ⟨none, none, none⟩⟩ with ha1
  set a2 := rule2DestinationsNearby cfg A B a1 with ha2
  set a3 := rule3SameDestinationName A B a2 with ha3
  set a4 := rule4PickupAlongA cfg A B a3 with ha4
  set a5 := rule5DropoffAlongA cfg A B a4 with ha5
  set a6 := rule6ReversePickup cfg A B a5 with ha6
  set a7 := rule7ReverseDropoff cfg A B a6 with ha7
  set a8 := rule8SameTravelDate A B a7 with ha8
  have hT : 0 < cfg.ROUTE_PROXIMITY_KM := by
    rw [hcfg]
    show 0 < min A.matchRadius B.matchRadius / 2
    linarith
  have hle0 : calculateDistance p p ≤ cfg.SOURCE_RADIUS_KM := by
    rw [calculateDistance_self, hcfg]
    show (0 : ℝ) ≤ min A.matchRadius B.matchRadius
    linarith
  have hle0d : calculateDistance q q ≤ cfg.DESTINATION_RADIUS_KM := by
    rw [calculateDistance_self, hcfg]
    show (0 : ℝ) ≤ min A.matchRadius B.matchRadius
    linarith
  have h1 : a1.score = 45 := by
    rw [ha1, rule1_eq_near cfg A B _ p p hAs hBs hle0]
    dsimp only
    rw [calculateDistance_self, zero_div]
    norm_num [round_eq]
  have h2 : a2.score = a1.score + 45 := by
    rw [ha2, rule2_eq_near cfg A B a1 q q hAd hBd hle0d]
    dsimp only
    rw [calculateDistance_self, zero_div]
    norm_num [round_eq]
  have h3 : a3.score = a2.score + 10 := by
    rw [ha3, rule3_eq_same A B a2 hname]
  have h4 : a3.score ≤ a4.score := by
    rw [ha4]
    exact rule4_score_mono cfg A B a3 hT
  have h5 : a4.score ≤ a5.score := by
    rw [ha5]
    exact rule5_score_mono cfg A B a4 hT
  have h6 : a5.score ≤ a6.score := by
    rw [ha6]
    exact rule6_score_mono cfg A B a5 hT
  have h7 : a6.score ≤ a7.score := by
    rw [ha7]
    exact rule7_score_mono cfg A B a6 hT
  have h8 : a8.score = a7.score + 30 := by
    rw [ha8, rule8_eq_same A B a7 hdate]
  have h9 : (rule9SameTransportMode A B a8).score = a8.score + 20 := by
    rw [rule9_eq_same A B a8 hmode]
  rw [h9]
  linarith

/-- Witness for `identical_trips_score_at_least_150`: the concrete trip
`tripIdent` against itself. -/
theorem identical_trips_score_at_least_150_witness :
    150 ≤ (calculateMatchScore tripIdent tripIdent).score :=
  identical_trips_score_at_least_150 tripIdent tripIdent (0, 0) (0, 0)
    rfl rfl rfl rfl rfl rfl rfl
    (by norm_num [tripIdent]) (by norm_num [tripIdent])

/-- C7: `getMatchingConfig` derives thresholds `R`, `R`, `R/2` (and the
fixed score bar 50) from the radius; `calculateMatchScore` always runs on
the configuration of the minimum of the two radii; and a source or
destination distance beyond that minimum contributes neither score nor a
reason, even when it is admissible under the larger of the two radii. -/
theorem effective_radius_policy :
    (∀ r : ℝ, (getMatchingConfig r).SOURCE_RADIUS_KM = r ∧
      (getMatchingConfig r).DESTINATION_RADIUS_KM = r ∧
      (getMatchingConfig r).ROUTE_PROXIMITY_KM = r / 2 ∧
      (getMatchingConfig r).MIN_MATCH_SCORE = 50) ∧
    (∀ A B : ScoreTrip, calculateMatchScore A B =
      scoreWithConfig (getMatchingConfig (min A.matchRadius B.matchRadius)) A B) ∧
    (∀ (A B : ScoreTrip) (acc : MatchResult) (pa pb : ℝ × ℝ),
      A.sourceCoords = some pa → B.sourceCoords = some pb →
      min A.matchRadius B.matchRadius < calculateDistance pa pb →
      calculateDistance pa pb ≤ max A.matchRadius B.matchRadius →
      (rule1SourcesNearby (getMatchingConfig (min A.matchRadius B.matchRadius)) A B acc).score = acc.score ∧
      (rule1SourcesNearby (getMatchingConfig (min A.matchRadius B.matchRadius)) A B acc).reasons = acc.reasons) ∧
    (∀ (A B : ScoreTrip) (acc : MatchResult) (pa pb : ℝ × ℝ),
      A.destCoords = some pa → B.destCoords = some pb →
      min A.matchRadius B.matchRadius < calculateDistance pa pb →
      calculateDistance pa pb ≤ max A.matchRadius B.matchRadius →
      (rule2DestinationsNearby (getMatchingConfig (min A.matchRadius B.matchRadius)) A B acc).score = acc.score ∧
      (rule2DestinationsNearby (getMatchingConfig (min A.matchRadius B.matchRadius)) A B acc).reasons = acc.reasons) := by
  refine ⟨fun r => ⟨rfl, rfl, rfl, rfl⟩, fun A B => rfl, ?_, ?_⟩
  · intro A B acc pa pb hA hB hlt _
    rw [rule1_eq_far (getMatchingConfig (min A.matchRadius B.matchRadius)) A B acc pa pb hA hB
      (not_le.2 hlt)]
    exact ⟨rfl, rfl⟩
  · intro A B acc pa pb hA hB hlt _
    have hgt : ¬ calculateDistance pa pb ≤
        (getMatchingConfig (min A.matchRadius B.matchRadius)).DESTINATION_RADIUS_KM :=
      not_le.2 hlt
    unfold rule2DestinationsNearby
    rw [hA, hB]
    dsimp only
    rw [if_neg hgt]
    exact ⟨rfl, rfl⟩

/-- Witness for `effective_radius_policy`: radii 1 and 100, sources 50 km
apart — admissible under the wide radius, beyond the narrow one — add no
score. -/
theorem effective_radius_policy_witness :
    (rule1SourcesNearby (getMatchingConfig (min tripNarrow.matchRadius tripWide.matchRadius))
        tripNarrow tripWide ⟨0, [], ⟨none, none, none⟩⟩).score = 0 := by
  have hd : calculateDistance (0, 0) (0, equatorLon 50) = 50 := by
    simp only [equatorLon]
    exact calculateDistance_equator 50 (by norm_num) (by norm_num)
  have hlt : min tripNarrow.matchRadius tripWide.matchRadius <
      calculateDistance (0, 0) (0, equatorLon 50) := by
    rw [hd]
    norm_num [tripNarrow, tripWide]
  have hle : calculateDistance (0, 0) (0, equatorLon 50) ≤
      max tripNarrow.matchRadius tripWide.matchRadius := by
    rw [hd]
    norm_num [tripNarrow, tripWide]
  exact (effective_radius_policy.2.2.1 tripNarrow tripWide
    ⟨0, [], ⟨none, none, none⟩⟩ (0, 0) (0, equatorLon 50) rfl rfl hlt hle).1

/-- C10: whenever both source coordinates are present and the measured
distance is within the effective radius, the proximity reason tag lands in
the reasons list of `calculateMatchScore` — including at the boundary
`d = R`, where the rounded score contribution is 0, so the list can hold
an entry that contributed nothing to the score. -/
theorem proximity_reason_recorded_at_zero_contribution
    (A B : ScoreTrip) (pa pb : ℝ × ℝ)
    (hA : A.sourceCoords = some pa) (hB : B.sourceCoords = some pb)
    (hle : calculateDistance pa pb ≤ min A.matchRadius B.matchRadius) :
    Reason.starting_points_nearby (calculateDistance pa pb) ∈ (calculateMatchScore A B).reasons ∧
    (calculateDistance pa pb = min A.matchRadius B.matchRadius →
      0 < min A.matchRadius B.matchRadius →
      round ((45 : ℝ) * (1 - calculateDistance pa pb / min A.matchRadius B.matchRadius)) = 0) := by
  constructor
  · unfold calculateMatchScore scoreWithConfig
    set cfg := getMatchingConfig (min A.matchRadius B.matchRadius) with hcfg
    set a1 := rule1SourcesNearby cfg A B ⟨0, [], ⟨none, none, none⟩⟩ with ha1
    set a2 := rule2DestinationsNearby cfg A B a1 with ha2
    set a3 := rule3SameDestinationName A B a2 with ha3
    set a4 := rule4PickupAlongA cfg A B a3 with ha4
    set a5 := rule5DropoffAlongA cfg A B a4 with ha5
    set a6 := rule6ReversePickup cfg A B a5 with ha6
    set a7 := rule7ReverseDropoff cfg A B a6 with ha7
    set a8 := rule8SameTravelDate A B a7 with ha8
    have hm1 : Reason.starting_points_nearby (calculateDistance pa pb) ∈ a1.reasons := by
      rw [ha1, rule1_eq_near cfg A B _ pa pb hA hB hle]
      dsimp only
      exact List.mem_append_right _ (List.mem_singleton_self _)
    obtain ⟨t2, e2⟩ := rule2_reasons_mono cfg A B a1
    obtain ⟨t3, e3⟩ := rule3_reasons_mono A B a2
    obtain ⟨t4, e4⟩ := rule4_reasons_mono cfg A B a3
    obtain ⟨t5, e5⟩ := rule5_reasons_mono cfg A B a4
    obtain ⟨t6, e6⟩ := rule6_reasons_mono cfg A B a5
    obtain ⟨t7, e7⟩ := rule7_reasons_mono cfg A B a6
    obtain ⟨t8, e8⟩ := rule8_reasons_mono A B a7
    obtain ⟨t9, e9⟩ := rule9_reasons_mono A B a8
    rw [e9, ← ha8] at *
    rw [e8, ← ha7] at *
    rw [e7, ← ha6] at *
    rw [e6, ← ha5] at *
    rw [e5, ← ha4] at *
    rw [e4, ← ha3] at *
    rw [e3, ← ha2] at *
    rw [e2]
    simp only [List.mem_append]
    exact Or.inl (Or.inl (Or.inl (Or.inl (Or.inl (Or.inl (Or.inl (Or.inl hm1)))))))
  · intro hd hR
    rw [hd, div_self (ne_of_gt hR)]
    norm_num

/-- Witness for `proximity_reason_recorded_at_zero_contribution`: sources
exactly 10 km apart with both radii 10 — the tag is recorded although the
rounded contribution is 0. -/
theorem proximity_reason_recorded_at_zero_contribution_witness :
    Reason.starting_points_nearby (calculateDistance (0, 0) (0, equatorLon 10)) ∈
        (calculateMatchScore tripBoundaryA tripBoundaryB).reasons ∧
      round ((45 : ℝ) * (1 - calculateDistance (0, 0) (0, equatorLon 10) /
        min tripBoundaryA.matchRadius tripBoundaryB.matchRadius)) = 0 := by
  have hd : calculateDistance (0, 0) (0, equatorLon 10) = 10 := by
    simp only [equatorLon]
    exact calculateDistance_equator 10 (by norm_num) (by norm_num)
  have hmin : min tripBoundaryA.matchRadius tripBoundaryB.matchRadius = 10 := by
    norm_num [tripBoundaryA, tripBoundaryB]
  obtain ⟨hmem, hz⟩ := proximity_reason_recorded_at_zero_contribution
    tripBoundaryA tripBoundaryB (0, 0) (0, equatorLon 10) rfl rfl
    (by rw [hd, hmin])
  refine ⟨hmem, hz (by rw [hd, hmin]) (by rw [hmin]; norm_num)⟩

/-- C2 (amended): `details.sourceDistance` and
`details.destinationDistance` are present exactly when both corresponding
coordinates are present — the radius test does not gate them — and
`details.routeProximity` is set only by rule 4 (the source of B against
the route of A) when that rule fires; rules 5 to 7 never set it. -/
theorem match_details_characterization (A B : ScoreTrip) :
    ((calculateMatchScore A B).details.sourceDistance =
      match A.sourceCoords, B.sourceCoords with
      | some pa, some pb => some (calculateDistance pa pb)
      | _, _ => none) ∧
    ((calculateMatchScore A B).details.destinationDistance =
      match A.destCoords, B.destCoords with
      | some pa, some pb => some (calculateDistance pa pb)
      | _, _ => none) ∧
    ((calculateMatchScore A B).details.routeProximity =
      match B.sourceCoords, A.routeGeometry with
      | some pb, some rg =>
        if 0 < rg.length then
          match distanceToRoute pb rg with
          | some d => if d ≤ min A.matchRadius B.matchRadius / 2 then some d else none
          | none => none
        else none
      | _, _ => none) := by
  refine ⟨?_, ?_, ?_⟩
  · rcases hsA : A.sourceCoords with _ | pa <;> rcases hsB : B.sourceCoords with _ | pb <;>
      simp only [calculateMatchScore, scoreWithConfig, rule9_details, rule8_details,
        rule7_details, rule6_details, rule5_details, rule4_details_sourceDistance,
        rule3_details, rule2_details_sourceDistance, rule1_details_sourceDistance,
        hsA, hsB]
  · rcases hdA : A.destCoords with _ | pa <;> rcases hdB : B.destCoords with _ | pb <;>
      simp only [calculateMatchScore, scoreWithConfig, rule9_details, rule8_details,
        rule7_details, rule6_details, rule5_details, rule4_details_destinationDistance,
        rule3_details, rule2_details_destinationDistance, rule1_details_destinationDistance,
        hdA, hdB]
  · rcases hsB : B.sourceCoords with _ | pb <;> rcases hrA : A.routeGeometry with _ | rg <;>
      simp only [calculateMatchScore, scoreWithConfig, rule9_details, rule8_details,
        rule7_details, rule6_details, rule5_details, rule4_details_routeProximity,
        rule3_details, rule2_details_routeProximity, rule1_details_routeProximity,
        getMatchingConfig, hsB, hrA]

/-- Counterexample to C2 as frozen: two trips whose sources are 50 km
apart with effective radius 10 — the measured distance exceeds the
radius, yet `details.sourceDistance` is present. -/
theorem match_details_present_beyond_radius :
    min tripFarA.matchRadius tripFarB.matchRadius <
        calculateDistance (0, 0) (0, equatorLon 50) ∧
      (calculateMatchScore tripFarA tripFarB).details.sourceDistance ≠ none := by
  have hd : calculateDistance (0, 0) (0, equatorLon 50) = 50 := by
    simp only [equatorLon]
    exact calculateDistance_equator 50 (by norm_num) (by norm_num)
  constructor
  · rw [hd]
    norm_num [tripFarA, tripFarB]
  · simp only [calculateMatchScore, scoreWithConfig, rule9_details, rule8_details,
      rule7_details, rule6_details, rule5_details, rule4_details_sourceDistance,
      rule3_details, rule2_details_sourceDistance, rule1_details_sourceDistance]
    simp [tripFarA, tripFarB]

/-! ## Claim theorems: matching orchestrator -/

/-- Each loop step only appends to the accumulated batch. -/
theorem matchStep_emit (createdTripId : ℤ) (newTrip : ScoreTrip)
    (ts : String) (acc : List TripMatchInsert) (pm : PotentialMatch) :
    matchStep createdTripId newTrip ts acc pm =
      acc ++ matchStep createdTripId newTrip ts [] pm := by
  unfold matchStep
  dsimp only
  split
  · rfl
  · simp

/-- The loop distributes over the candidate list: the batch for
`init`-seeded tail equals `init` followed by the tail batch. -/
theorem foldl_matchStep (createdTripId : ℤ) (newTrip : ScoreTrip)
    (ts : String) :
    ∀ (l : List PotentialMatch) (init : List TripMatchInsert),
      l.foldl (matchStep createdTripId newTrip ts) init =
        init ++ l.foldl (matchStep createdTripId newTrip ts) [] := by
  intro l
  induction l with
  | nil => intro init; simp
  | cons b bs ih =>
    intro init
    simp only [List.foldl_cons]
    rw [ih (matchStep createdTripId newTrip ts init b),
      ih (matchStep createdTripId newTrip ts [] b),
      matchStep_emit createdTripId newTrip ts init b, List.append_assoc]

/-- C1: for any candidate `pm` anywhere in the candidate list, the
orchestrator emits, for that pair, exactly the two directed records with
swapped `tripId`/`matchedTripId`, the identical score and the same
creation timestamp when the score reaches 50, and no record at all when
it does not (so a score of 49 yields zero records and a score of 50
yields two). -/
theorem matching_emits_bidirectional_pair (createdTripId : ℤ)
    (newTrip : ScoreTrip) (pre post : List PotentialMatch)
    (pm : PotentialMatch) (ts : String) :
    runMatching createdTripId newTrip (pre ++ pm :: post) ts =
      runMatching createdTripId newTrip pre ts ++
      (if 50 ≤ (calculateMatchScore newTrip (scoreTripOfMatch pm)).score then
        [{ tripId := createdTripId, matchedTripId := pm.id,
           matchScore := (calculateMatchScore newTrip (scoreTripOfMatch pm)).score,
           status := "pending", createdAt := ts },
         { tripId := pm.id, matchedTripId := createdTripId,
           matchScore := (calculateMatchScore newTrip (scoreTripOfMatch pm)).score,
           status := "pending", createdAt := ts }]
      else []) ++
      runMatching createdTripId newTrip post ts := by
  unfold runMatching
  rw [List.foldl_append, List.foldl_cons,
    foldl_matchStep createdTripId newTrip ts post,
    matchStep_emit createdTripId newTrip ts
      ((pre.foldl (matchStep createdTripId newTrip ts)) []) pm,
    List.append_assoc]
  have hstep : matchStep createdTripId newTrip ts [] pm =
      (if 50 ≤ (calculateMatchScore newTrip (scoreTripOfMatch pm)).score then
        [{ tripId := createdTripId, matchedTripId := pm.id,
           matchScore := (calculateMatchScore newTrip (scoreTripOfMatch pm)).score,
           status := "pending", createdAt := ts },
         { tripId := pm.id, matchedTripId := createdTripId,
           matchScore := (calculateMatchScore newTrip (scoreTripOfMatch pm)).score,
           status := "pending", createdAt := ts }]
      else []) := by
    unfold matchStep
    dsimp only
    split
    · rw [if_pos (by assumption)]
      simp
    · rw [if_neg (by assumption)]
  rw [hstep]
  simp [List.append_assoc]


/-! ## Claim theorems: combined-route builder -/

/-- The pickup waypoints among the collected waypoints are exactly one
pickup per trip with source coordinates, in trip order. -/
theorem collectWaypoints_filter_pickup (memberTrips : List MemberTrip) :
    (collectWaypoints memberTrips).filter (fun w => w.type == "pickup") =
      memberTrips.filterMap (fun trip => trip.sourceCoordinates.map (fun c =>
        { lat := c.1, lon := c.2, type := "pickup",
          userId := trip.userId, location := trip.source })) := by
  induction memberTrips with
  | nil => rfl
  | cons t ts ih =>
    simp only [collectWaypoints] at ih ⊢
    rw [List.flatMap_cons, List.filter_append, List.filter_append, ih,
      List.filterMap_cons]
    rcases t.sourceCoordinates with _ | c <;>
      rcases t.destinationCoordinates with _ | c2 <;>
      simp

/-- C9: the waypoint sequence the combined-route builder sends to the
routing provider lists every pickup before every dropoff (its rank map is
sorted, pickups rank 0, dropoffs rank 1), and the pickups appear in the
order their trips were returned (one per trip with source
coordinates). -/
theorem combined_route_pickups_before_dropoffs (memberTrips : List MemberTrip) :
    ((orderedWaypointsOf memberTrips).map waypointRank).Sorted (· ≤ ·) ∧
    (orderedWaypointsOf memberTrips).filter (fun w => w.type == "pickup") =
      memberTrips.filterMap (fun trip => trip.sourceCoordinates.map (fun c =>
        { lat := c.1, lon := c.2, type := "pickup",
          userId := trip.userId, location := trip.source })) := by
  have hp : ∀ w ∈ (collectWaypoints memberTrips).filter (fun w => w.type == "pickup"),
      waypointRank w = 0 := by
    intro w hw
    have h2 := (List.mem_filter.1 hw).2
    simp only [waypointRank, h2]
    rfl
  have hdty : ∀ w ∈ (collectWaypoints memberTrips).filter (fun w => w.type == "dropoff"),
      w.type = "dropoff" := by
    intro w hw
    exact eq_of_beq (List.mem_filter.1 hw).2
  have hd : ∀ w ∈ (collectWaypoints memberTrips).filter (fun w => w.type == "dropoff"),
      waypointRank w = 1 := by
    intro w hw
    simp [waypointRank, hdty w hw]
  constructor
  · simp only [orderedWaypointsOf]
    rw [List.map_append]
    rw [List.Sorted, List.pairwise_append]
    refine ⟨List.pairwise_of_forall_mem_list ?_, List.pairwise_of_forall_mem_list ?_, ?_⟩
    · intro a ha b hb
      obtain ⟨wa, hwa, rfl⟩ := List.mem_map.1 ha
      obtain ⟨wb, hwb, rfl⟩ := List.mem_map.1 hb
      rw [hp wa hwa, hp wb hwb]
    · intro a ha b hb
      obtain ⟨wa, hwa, rfl⟩ := List.mem_map.1 ha
      obtain ⟨wb, hwb, rfl⟩ := List.mem_map.1 hb
      rw [hd wa hwa, hd wb hwb]
    · intro a ha b hb
      obtain ⟨wa, hwa, rfl⟩ := List.mem_map.1 ha
      obtain ⟨wb, hwb, rfl⟩ := List.mem_map.1 hb
      rw [hp wa hwa, hd wb hwb]
      exact Nat.zero_le 1
  · simp only [orderedWaypointsOf]
    rw [List.filter_append]
    have h1 : ((collectWaypoints memberTrips).filter (fun w => w.type == "pickup")).filter
        (fun w => w.type == "pickup") =
        (collectWaypoints memberTrips).filter (fun w => w.type == "pickup") := by
      rw [List.filter_filter]
      simp
    have h2 : ((collectWaypoints memberTrips).filter (fun w => w.type == "dropoff")).filter
        (fun w => w.type == "pickup") = [] := by
      rw [List.filter_eq_nil_iff]
      intro w hw
      simp [hdty w hw]
    rw [h1, h2, List.append_nil, collectWaypoints_filter_pickup]

/-! ## Claim theorems: route alternative analyzer -/

/-- C8: with exactly one candidate, the analyzer returns only the
"cheapest"-typed result — the fastest pick is the same object, so no
"fastest" entry is pushed, and the balanced block needs more than two
candidates. -/
theorem single_candidate_only_cheapest (r : AltRoute)
    (mode : TransportMode) (opt : OptimizationMode) :
    (analyzeAlternatives [r] mode opt).map (fun rd => rd.optimizationType) =
      [OptimizationType.cheapest] := by
  rcases opt <;>
    simp [analyzeAlternatives, analyzedRoutesOf, jsSortBy, insertStable,
      mkRouteData, List.enum, List.enumFrom]

/-- C4 (evaluation at the failing input): for endpoints exactly 100 km
apart on the equator, the synthesized fallback route has distance
130000 m (the 30%-inflated straight line, as specified) but duration
130 — the `/ 60 * 60` of the source cancels, leaving the inflated
distance in kilometres — so, read in seconds as everywhere else in the
handler, the implied average speed is 3600 km/h, not 60 km/h (which
would be 7800 s). -/
theorem fallback_route_duration_eval :
    (fallbackDirectRoute (0, 0) (equatorLon 100, 0) "City").distance = 130000 ∧
    (fallbackDirectRoute (0, 0) (equatorLon 100, 0) "City").duration = 130 ∧
    ((fallbackDirectRoute (0, 0) (equatorLon 100, 0) "City").distance / 1000) /
      ((fallbackDirectRoute (0, 0) (equatorLon 100, 0) "City").duration / 3600) = 3600 ∧
    (fallbackDirectRoute (0, 0) (equatorLon 100, 0) "City").duration ≠ 7800 := by
  have hπ : (0 : ℝ) < π := Real.pi_pos
  have hπ3 : (3 : ℝ) < π := Real.pi_gt_three
  have hE : 100 * 180 / (6371 * π) * (π / 180) / 2 = 100 / 6371 / 2 := by
    field_simp
    ring
  have hθ0 : (0 : ℝ) ≤ 100 / 6371 / 2 := by positivity
  have hθπ : (100 : ℝ) / 6371 / 2 < π / 2 := by nlinarith
  refine ⟨?_, ?_, ?_, ?_⟩ <;>
    · simp only [fallbackDirectRoute, toRad, equatorLon, sub_self, sub_zero,
        zero_mul, zero_div, Real.sin_zero, Real.cos_zero, mul_zero, zero_add,
        mul_one]
      rw [hE, atan2_sqrt_sin_sq _ hθ0 hθπ]
      norm_num

/-- Scoring `routeCandA` for cost under car mode. -/
theorem routeCandA_cheapest_analysis :
    calculateRouteScore 50000 3600 TransportMode.car ScoreObjective.cheapest =
      { cost := 6, score := 6, fuelEfficiency := 2500 / 3, trafficFactor := 8 / 5 } := by
  norm_num [calculateRouteScore, estimateFuelCost, estimateTrafficFactor,
    fuelEfficiencyRates, expectedSpeeds, min_def, max_def, RouteScoreResult.mk.injEq]

/-- Scoring `routeCandA` for time under car mode. -/
theorem routeCandA_fastest_analysis :
    calculateRouteScore 50000 3600 TransportMode.car ScoreObjective.fastest =
      { cost := 6, score := 5760, fuelEfficiency := 2500 / 3, trafficFactor := 8 / 5 } := by
  norm_num [calculateRouteScore, estimateFuelCost, estimateTrafficFactor,
    fuelEfficiencyRates, expectedSpeeds, min_def, max_def, RouteScoreResult.mk.injEq]

/-- Scoring `routeCandB` for cost under car mode. -/
theorem routeCandB_cheapest_analysis :
    calculateRouteScore 60000 7200 TransportMode.car ScoreObjective.cheapest =
      { cost := 9, score := 9, fuelEfficiency := 2000 / 3, trafficFactor := 8 / 3 } := by
  norm_num [calculateRouteScore, estimateFuelCost, estimateTrafficFactor,
    fuelEfficiencyRates, expectedSpeeds, min_def, max_def, RouteScoreResult.mk.injEq]

/-- Scoring `routeCandB` for time under car mode. -/
theorem routeCandB_fastest_analysis :
    calculateRouteScore 60000 7200 TransportMode.car ScoreObjective.fastest =
      { cost := 9, score := 19200, fuelEfficiency := 2000 / 3, trafficFactor := 8 / 3 } := by
  norm_num [calculateRouteScore, estimateFuelCost, estimateTrafficFactor,
    fuelEfficiencyRates, expectedSpeeds, min_def, max_def, RouteScoreResult.mk.injEq]

/-- Scoring `routeCandC` for cost under car mode. -/
theorem routeCandC_cheapest_analysis :
    calculateRouteScore 80000 5400 TransportMode.car ScoreObjective.cheapest =
      { cost := 48 / 5, score := 48 / 5, fuelEfficiency := 2500 / 3, trafficFactor := 3 / 2 } := by
  norm_num [calculateRouteScore, estimateFuelCost, estimateTrafficFactor,
    fuelEfficiencyRates, expectedSpeeds, min_def, max_def, RouteScoreResult.mk.injEq]

/-- Scoring `routeCandC` for time under car mode. -/
theorem routeCandC_fastest_analysis :
    calculateRouteScore 80000 5400 TransportMode.car ScoreObjective.fastest =
      { cost := 48 / 5, score := 8100, fuelEfficiency := 2500 / 3, trafficFactor := 3 / 2 } := by
  norm_num [calculateRouteScore, estimateFuelCost, estimateTrafficFactor,
    fuelEfficiencyRates, expectedSpeeds, min_def, max_def, RouteScoreResult.mk.injEq]

/-- The analyzed array of the three concrete candidates. -/
theorem analyzedRoutesOf_concrete :
    analyzedRoutesOf [routeCandA, routeCandB, routeCandC] TransportMode.car =
      [analyzedA, analyzedB, analyzedC] := by
  simp only [analyzedRoutesOf, List.enum, List.enumFrom, List.map,
    routeCandA, routeCandB, routeCandC]
  simp only [routeCandA_cheapest_analysis, routeCandA_fastest_analysis,
    routeCandB_cheapest_analysis, routeCandB_fastest_analysis,
    routeCandC_cheapest_analysis, routeCandC_fastest_analysis,
    analyzedA, analyzedB, analyzedC, routeCandA, routeCandB, routeCandC]

/-- Sorting the three analyzed candidates by cost keeps them in place
(costs 6, 9, 9.6). -/
theorem sortedByCost_concrete :
    jsSortBy (fun a => a.cheapestScore) [analyzedA, analyzedB, analyzedC] =
      [analyzedA, analyzedB, analyzedC] := by
  norm_num [jsSortBy, List.foldr, insertStable, analyzedA, analyzedB, analyzedC]

/-- Sorting the three analyzed candidates by time-with-traffic puts the
first candidate first (scores 5760, 19200, 8100). -/
theorem sortedBySpeed_concrete :
    jsSortBy (fun a => a.fastestScore) [analyzedA, analyzedB, analyzedC] =
      [analyzedA, analyzedC, analyzedB] := by
  norm_num [jsSortBy, List.foldr, insertStable, analyzedA, analyzedB, analyzedC]

/-- C3 (evaluation at the failing input): three distinct candidates where
the first is simultaneously the cheapest pick, the fastest pick, and the
balanced minimizer.  The handler still emits a "balanced" entry — the
distinctness test compares the freshly allocated spread objects of
`balancedRoutes` against elements of `analyzedRoutes`, so it never
excludes — and that entry carries the same route as the "cheapest" entry
(both distances 50000). -/
theorem balanced_entry_duplicates_cheapest_pick :
    (analyzeAlternatives [routeCandA, routeCandB, routeCandC] TransportMode.car
        OptimizationMode.cheapest).map (fun rd => rd.optimizationType) =
      [OptimizationType.cheapest, OptimizationType.balanced] ∧
    (analyzeAlternatives [routeCandA, routeCandB, routeCandC] TransportMode.car
        OptimizationMode.cheapest).map (fun rd => rd.distance) =
      [50000, 50000] := by
  constructor <;>
  · simp only [analyzeAlternatives, analyzedRoutesOf_concrete, sortedByCost_concrete,
      sortedBySpeed_concrete, List.head?]
    norm_num [jsSortBy, List.foldr, insertStable, List.enum, List.enumFrom,
      List.map, mkRouteData, analyzedA, analyzedB, analyzedC,
      routeCandA, routeCandB, routeCandC]
